import Mathlib

/-!
Shallow embedding of the task-lifecycle layer of the gateway:
the reconciliation / settlement state machine of
`src/controller/task_video.go` (`updateVideoTaskAll`, `updateVideoSingleTask`)
and the volcvideo provider adaptor's `ParseTaskResult`
(`src/unnamed/part_000`).

Modelling conventions:
- Go machine integers become `Int`; the quota arithmetic never overflows in
  the scenarios considered.
- Go `float64` rate arithmetic is modelled exactly over `ℚ`; the conversion
  `int(x)` of Go (truncation toward zero) is `goTruncInt`.
- External collaborators (rate lookups `ratio_setting.GetModelRatio` /
  `GetCompletionRatio` / `GetGroupRatio`, the JSON model-name extraction
  `json.Unmarshal` + `["model"].(string)`, ledger call outcomes, and the
  wall clock `time.Now().Unix()`) are supplied through an `Env` record.
  Source names ending in "Ratio" are rendered "Rate" in this development.
- Ledger side effects are recorded as an explicit `Event` list: each event
  is one collaborator call with its semantic arguments (the exact formatted
  log strings produced via the external `logger.LogQuota` are reduced to a
  recognizable tag plus the task id).
-/

namespace Video

/-- Modelled from the spec: the six-state task status enum
(Submitted, Queued, InProgress, Success, Failure, Unknown).  The `model`
package declaring the `TaskStatus` string constants is not under `src/`;
they are modelled as the conventional distinct upper-case strings used
throughout the repository. -/
def TaskStatusSubmitted : String := "SUBMITTED"

/-- Modelled from the spec: see `TaskStatusSubmitted`. -/
def TaskStatusQueued : String := "QUEUED"

/-- Modelled from the spec: see `TaskStatusSubmitted`. -/
def TaskStatusInProgress : String := "IN_PROGRESS"

/-- Modelled from the spec: see `TaskStatusSubmitted`. -/
def TaskStatusSuccess : String := "SUCCESS"

/-- Modelled from the spec: see `TaskStatusSubmitted`. -/
def TaskStatusFailure : String := "FAILURE"

/-- Modelled from the spec: see `TaskStatusSubmitted`. -/
def TaskStatusUnknown : String := "UNKNOWN"

/-- Persisted task record (`model.Task`), restricted to the fields read or
written by `updateVideoSingleTask` / `updateVideoTaskAll`. -/
structure Task where
  TaskID : String := ""
  Action : String := ""
  Status : String := ""
  Progress : String := ""
  ModelName : String := ""
  Group : String := ""
  UserId : Int := 0
  ChannelId : Int := 0
  TokenId : Int := 0
  TokenName : String := ""
  Quota : Int := 0
  SubmitTime : Int := 0
  StartTime : Int := 0
  FinishTime : Int := 0
  FailReason : String := ""
  Data : String := ""
deriving DecidableEq

/-- Normalized poll result (`relaycommon.TaskInfo`). -/
structure TaskInfo where
  TaskID : String := ""
  Status : String := ""
  Url : String := ""
  Progress : String := ""
  Reason : String := ""
  TotalTokens : Int := 0
deriving DecidableEq

/-- One external ledger / log collaborator call, with its semantic
arguments.  `decreaseUserQuota` / `increaseUserQuota` carry the outcome of
the call (`ok`), since follow-up calls in the source are conditional on it. -/
inductive Event where
  | decreaseUserQuota (userId delta : Int) (ok : Bool)
  | recordConsumeLog (userId quotaDelta totalTokens : Int) (modelName : String)
  | updateUserUsedQuotaAndRequestCount (userId delta : Int)
  | updateChannelUsedQuota (channelId delta : Int)
  | increaseUserQuota (userId amount : Int) (ok : Bool)
  | recordLog (userId : Int) (content : String)
deriving DecidableEq

/-- External collaborators of the settlement / reconciliation code. -/
structure Env where
  now : Int
  getModelRate : String → ℚ
  getCompletionRate : String → ℚ
  getGroupRate : String → ℚ
  parseModelField : String → Option String
  decreaseUserQuotaOk : Bool
  increaseUserQuotaOk : Bool

/-- Go's `int(x)` conversion from `float64`: truncation toward zero,
modelled exactly on `ℚ`.  Both numerator cases divide nonnegative integers,
on which every integer-division convention agrees. -/
def goTruncInt (q : ℚ) : Int :=
  if 0 ≤ q.num then q.num / (q.den : Int) else -((-q.num) / (q.den : Int))

/-- Model-name resolution chain of the Success settlement block
(`task_video.go` lines 126-153): stored task model name, else the `model`
field JSON-parsed out of the success reason snapshot, else the `model`
field JSON-parsed out of the raw task data, else the hard-coded default. -/
def resolveModelName (env : Env) (modelName0 reason data : String) : String :=
  let m1 := if modelName0 = "" ∧ reason ≠ "" then
      (env.parseModelField reason).getD modelName0
    else modelName0
  let m2 := if m1 = "" then (env.parseModelField data).getD m1 else m1
  if m2 = "" then "doubao-seedance-1-0-lite-i2v" else m2

/-- Result of the rate lookups and quota computation
(`task_video.go` lines 156-179). -/
structure SettleCalc where
  modelRate : ℚ
  completionRate : ℚ
  groupRate : ℚ
  actualQuota : Int
deriving DecidableEq

/-- The rate lookups and `actualQuota` computation of the settlement block:
model rate and completion rate are replaced by 1 when the lookup yields 0;
the group rate is used as looked up; `actualQuota` is the truncated product,
floored to 1 when it is ≤ 0 while the (effective) model rate is positive. -/
def settleCalc (env : Env) (modelName groupName : String) (totalTokens : Int) : SettleCalc :=
  let mr0 := env.getModelRate modelName
  let mr := if mr0 = 0 then 1 else mr0
  let cr0 := env.getCompletionRate modelName
  let cr := if cr0 = 0 then 1 else cr0
  let gr := env.getGroupRate groupName
  let a0 := goTruncInt ((totalTokens : ℚ) * cr * mr * gr)
  let a := if a0 ≤ 0 ∧ 0 < mr then 1 else a0
  { modelRate := mr, completionRate := cr, groupRate := gr, actualQuota := a }

/-- The full settlement step on a Success transition with usage tokens
(`task_video.go` lines 126-254): resolve the model name, compute
`actualQuota`, and when the delta is nonzero perform the ledger calls and
rewrite `task.Quota` to `actualQuota`. -/
def settleSuccess (env : Env) (task : Task) (tr : TaskInfo) : Task × List Event :=
  let modelName := resolveModelName env task.ModelName tr.Reason task.Data
  let groupName := if task.Group = "" then "default" else task.Group
  let c := settleCalc env modelName groupName tr.TotalTokens
  let quotaDelta := c.actualQuota - task.Quota
  if quotaDelta ≠ 0 then
    let events :=
      if 0 < quotaDelta then
        Event.decreaseUserQuota task.UserId quotaDelta env.decreaseUserQuotaOk ::
          (if env.decreaseUserQuotaOk then
            [Event.recordConsumeLog task.UserId quotaDelta tr.TotalTokens modelName,
             Event.updateUserUsedQuotaAndRequestCount task.UserId quotaDelta,
             Event.updateChannelUsedQuota task.ChannelId quotaDelta]
          else [])
      else
        Event.increaseUserQuota task.UserId (-quotaDelta) env.increaseUserQuotaOk ::
          (if env.increaseUserQuotaOk then
            [Event.recordLog task.UserId ("video task token-billing refund " ++ task.TaskID)]
          else [])
    ({ task with Quota := c.actualQuota }, events)
  else (task, [])

/-- The InProgress branch of the status switch: progress 30%, start time
set when still unset (the progress write does not affect the start-time
check). -/
def inProgressTransition (env : Env) (task : Task) : Task :=
  { task with
    Progress := "30%"
    StartTime := if task.StartTime = 0 then env.now else task.StartTime }

/-- The Success branch of the status switch: progress 100%, finish time
set when still unset, result URL copied into the fail-reason slot, then —
only with positive usage tokens — the settlement step. -/
def successTransition (env : Env) (task : Task) (tr : TaskInfo) : Task × List Event :=
  let t3 : Task :=
    { task with
      Progress := "100%"
      FinishTime := if task.FinishTime = 0 then env.now else task.FinishTime
      FailReason := tr.Url }
  if 0 < tr.TotalTokens then settleSuccess env t3 tr else (t3, [])

/-- The Failure branch of the status switch: progress 100%, finish time
set when still unset, reason copied; the task's current quota (the branch
reads it after the mutations, which leave it untouched) is refunded when
nonzero, and the system log entry is written even when the quota increase
call fails. -/
def failureTransition (env : Env) (task : Task) (tr : TaskInfo) : Task × List Event :=
  let t3 : Task :=
    { task with
      Status := TaskStatusFailure
      Progress := "100%"
      FinishTime := if task.FinishTime = 0 then env.now else task.FinishTime
      FailReason := tr.Reason }
  if task.Quota ≠ 0 then
    (t3, [Event.increaseUserQuota task.UserId task.Quota env.increaseUserQuotaOk,
          Event.recordLog task.UserId ("Video async task failed " ++ task.TaskID)])
  else (t3, [])

/-- The explicit-progress override after the status switch
(`task_video.go` lines 275-277). -/
def finalize (tr : TaskInfo) (p : Task × List Event) : Task × List Event :=
  if tr.Progress ≠ "" then ({ p.1 with Progress := tr.Progress }, p.2) else p

/-- Per-task reconciliation step `updateVideoSingleTask`
(`task_video.go` lines 103-283), starting from the normalized poll result:
empty status is an error; the task status is overwritten from the result;
the switch dispatches on the five handled statuses (any other status,
including Unknown, is the error default); finally an explicit progress
string from the result overrides the branch's default. -/
def updateVideoSingleTask (env : Env) (task : Task) (tr : TaskInfo) :
    Except String (Task × List Event) :=
  if tr.Status = "" then
    Except.error ("task " ++ task.TaskID ++ " status is empty")
  else
    let task1 := { task with Status := tr.Status }
    if tr.Status = TaskStatusSubmitted then
      Except.ok (finalize tr ({ task1 with Progress := "10%" }, []))
    else if tr.Status = TaskStatusQueued then
      Except.ok (finalize tr ({ task1 with Progress := "20%" }, []))
    else if tr.Status = TaskStatusInProgress then
      Except.ok (finalize tr (inProgressTransition env task1, []))
    else if tr.Status = TaskStatusSuccess then
      Except.ok (finalize tr (successTransition env task1 tr))
    else if tr.Status = TaskStatusFailure then
      Except.ok (finalize tr (failureTransition env task1 tr))
    else
      Except.error ("unknown task status " ++ tr.Status ++ " for task " ++ task.TaskID)

/-- The per-channel task loop of `updateVideoTaskAll`: every task is
attempted; a per-task error is logged and the loop continues. -/
def updateVideoTasksLoop (env : Env) (ps : List (Task × TaskInfo)) :
    List (Except String (Task × List Event)) :=
  ps.map fun p => updateVideoSingleTask env p.1 p.2

/-- The bulk update applied to each task of a channel whose channel-info
lookup failed (`task_video.go` lines 38-42): exactly the three fields
fail reason, status and progress are written. -/
def channelFailureBulkUpdate (channelId : Int) (task : Task) : Task :=
  { task with
    FailReason := "Failed to get channel info, channel ID: " ++ toString channelId,
    Status := "FAILURE",
    Progress := "100%" }

/-- Per-channel batch `updateVideoTaskAll` (`task_video.go` lines 31-58):
an empty batch does nothing; a failed channel-info lookup bulk-updates all
tasks of the batch and performs no ledger action; otherwise each task is
reconciled in order, a per-task error leaving that task's persisted record
unchanged.  Returns the persisted tasks and the ledger events. -/
def updateVideoTaskAllModel (env : Env) (channelOk : Bool) (channelId : Int)
    (ps : List (Task × TaskInfo)) : List Task × List Event :=
  if ps.isEmpty then (ps.map Prod.fst, [])
  else if channelOk = false then
    (ps.map fun p => channelFailureBulkUpdate channelId p.1, [])
  else
    let rs := ps.map fun p => (p.1, updateVideoSingleTask env p.1 p.2)
    (rs.map fun r => match r.2 with
      | Except.ok q => q.1
      | Except.error _ => r.1,
     rs.foldr (fun r acc => match r.2 with
      | Except.ok q => q.2 ++ acc
      | Except.error _ => acc) [])

/-- A sequence of reconciliation passes on one task: each pass applies
`updateVideoSingleTask` with its own environment (in particular its own
clock value); a pass that errors leaves the persisted task unchanged. -/
def runPasses (task : Task) : List (Env × TaskInfo) → Task
  | [] => task
  | p :: rest =>
      match updateVideoSingleTask p.1 task p.2 with
      | Except.ok q => runPasses q.1 rest
      | Except.error _ => runPasses task rest

/-- Convenience: the `actualQuota` the settlement block computes for a
given task and poll result. -/
def actualQuotaOf (env : Env) (task : Task) (tr : TaskInfo) : Int :=
  (settleCalc env (resolveModelName env task.ModelName tr.Reason task.Data)
    (if task.Group = "" then "default" else task.Group) tr.TotalTokens).actualQuota

/-! Volcvideo adaptor (`src/unnamed/part_000`). -/

/-- `error` object of the vendor fetch response. -/
structure FetchErr where
  code : String := ""
  message : String := ""
  errType : String := ""
  param : String := ""
deriving DecidableEq

/-- `usage` object of the vendor fetch response. -/
structure FetchUsage where
  completion_tokens : Int := 0
  total_tokens : Int := 0
deriving DecidableEq

/-- `content` object of the vendor fetch response. -/
structure FetchContent where
  video_url : String := ""
deriving DecidableEq

/-- The vendor polling payload (`fetchResponse`), after the external
`json.Unmarshal`.  The aspect-ratio field is rendered `ratioVal`. -/
structure FetchResponse where
  id : String := ""
  modelName : String := ""
  status : String := ""
  content : FetchContent := {}
  usage : FetchUsage := {}
  created_at : Int := 0
  updated_at : Int := 0
  seed : Int := 0
  resolution : String := ""
  duration : Int := 0
  ratioVal : String := ""
  framespersecond : Int := 0
  err : FetchErr := {}
deriving DecidableEq

/-- Go's `strings.ToLower`, for the ASCII status strings the adaptor
compares against. -/
def lowercase (s : String) : String := String.mk (s.data.map Char.toLower)

/-- Plain JSON string quoting (the escaping of the external marshaller is
reduced to quoting; none of the payload fields considered contain
characters needing escapes). -/
def jsonQuote (s : String) : String := "\"" ++ s ++ "\""

/-- The JSON snapshot of vendor metadata that `ParseTaskResult` stores in
the reason field on success: `json.Marshal` of the metadata map, keys in
Go's sorted map-key order. -/
def successSnapshot (fr : FetchResponse) : String :=
  "\x7b" ++
  "\"content\":\x7b\"video_url\":" ++ jsonQuote fr.content.video_url ++ "\x7d," ++
  "\"created_at\":" ++ toString fr.created_at ++ "," ++
  "\"duration\":" ++ toString fr.duration ++ "," ++
  "\"framespersecond\":" ++ toString fr.framespersecond ++ "," ++
  "\"id\":" ++ jsonQuote fr.id ++ "," ++
  "\"model\":" ++ jsonQuote fr.modelName ++ "," ++
  "\"ratio\":" ++ jsonQuote fr.ratioVal ++ "," ++
  "\"resolution\":" ++ jsonQuote fr.resolution ++ "," ++
  "\"seed\":" ++ toString fr.seed ++ "," ++
  "\"status\":" ++ jsonQuote fr.status ++ "," ++
  "\"updated_at\":" ++ toString fr.updated_at ++ "," ++
  "\"usage\":\x7b\"completion_tokens\":" ++ toString fr.usage.completion_tokens ++
  ",\"total_tokens\":" ++ toString fr.usage.total_tokens ++ "\x7d" ++
  "\x7d"

/-- `ParseTaskResult` of the volcvideo adaptor (`part_000` lines 225-294):
a non-empty vendor error code wins; an empty status is Unknown with the
format-mismatch reason; otherwise the lower-cased status dispatches the
fixed mapping, any other value being Unknown with the unknown-status
reason. -/
def ParseTaskResult (fr : FetchResponse) : TaskInfo :=
  let res : TaskInfo := { TaskID := fr.id }
  if fr.err.code ≠ "" then
    { res with Status := TaskStatusFailure, Progress := "100%",
               Reason := fr.err.code ++ ": " ++ fr.err.message }
  else if fr.status = "" then
    { res with Status := TaskStatusUnknown, Progress := "0%", Reason := "未知响应格式" }
  else
    let s := lowercase fr.status
    if s = "queued" then
      { res with Status := TaskStatusQueued, Progress := "20%" }
    else if s = "running" then
      { res with Status := TaskStatusInProgress, Progress := "60%" }
    else if s = "succeeded" then
      { res with Status := TaskStatusSuccess, Progress := "100%",
                 Url := fr.content.video_url, Reason := successSnapshot fr }
    else if s = "failed" then
      { res with Status := TaskStatusFailure, Progress := "100%",
                 Reason := if fr.err.message ≠ "" then fr.err.message else "任务执行失败" }
    else
      { res with Status := TaskStatusUnknown, Progress := "0%",
                 Reason := "未知状态: " ++ fr.status }

/-- Modelled from the spec: the spec's `round` in
`actualQuota = round(totalUsageTokens * completionRate * modelRate * groupRate)`,
read as round-half-up `⌊q + 1/2⌋`, written on numerator and denominator
(for the nonnegative quantities at which it is compared with the code
below, every standard rounding convention agrees). -/
def specRound (q : ℚ) : Int := (2 * q.num + (q.den : Int)) / (2 * (q.den : Int))

/-! Concrete fixtures used by witnesses, scenarios and counterexamples. -/

/-- Fixture: environment with all three rates 1 and succeeding ledger calls. -/
def envOnes : Env where
  now := 100
  getModelRate := fun _ => 1
  getCompletionRate := fun _ => 1
  getGroupRate := fun _ => 1
  parseModelField := fun _ => none
  decreaseUserQuotaOk := true
  increaseUserQuotaOk := true

/-- Fixture: as `envOnes` but the completion-rate lookup yields 1/4. -/
def envQuarter : Env := { envOnes with getCompletionRate := fun _ => 1/4 }

/-- Fixture: as `envOnes` but the group-rate lookup yields 0. -/
def envGroupZero : Env := { envOnes with getGroupRate := fun _ => 0 }

/-- Fixture: as `envOnes` but the user-quota debit call fails. -/
def envDebitFails : Env := { envOnes with decreaseUserQuotaOk := false }

/-- Fixture: a pending task with reserved quota 50. -/
def task50 : Task :=
  { TaskID := "t1", ModelName := "m", Group := "g", UserId := 7, ChannelId := 9,
    Quota := 50, SubmitTime := 10 }

/-- Fixture: Success poll result carrying 80 usage tokens. -/
def trS80 : TaskInfo :=
  { TaskID := "t1", Status := TaskStatusSuccess, Url := "http://v.example/x.mp4",
    Progress := "100%", TotalTokens := 80 }

/-- Fixture: Success poll result carrying 7 usage tokens. -/
def trS7 : TaskInfo :=
  { TaskID := "t1", Status := TaskStatusSuccess, Url := "http://v.example/x.mp4",
    Progress := "100%", TotalTokens := 7 }

/-- Fixture: the persisted task after the reserved-50 / 80-token scenario. -/
def task50Settled : Task :=
  { TaskID := "t1", Status := "SUCCESS", Progress := "100%", ModelName := "m",
    Group := "g", UserId := 7, ChannelId := 9, Quota := 80, SubmitTime := 10,
    FinishTime := 100, FailReason := "http://v.example/x.mp4" }

/-- Fixture: the ledger calls of the reserved-50 / 80-token scenario. -/
def scenarioEvents : List Event :=
  [Event.decreaseUserQuota 7 30 true,
   Event.recordConsumeLog 7 30 80 "m",
   Event.updateUserUsedQuotaAndRequestCount 7 30,
   Event.updateChannelUsedQuota 9 30]

/-- Fixture: Failure poll result. -/
def trFail : TaskInfo :=
  { TaskID := "t1", Status := TaskStatusFailure, Progress := "100%", Reason := "boom" }

/-- Fixture: Unknown-status poll result. -/
def trUnknown : TaskInfo := { TaskID := "t1", Status := TaskStatusUnknown }

/-- Fixture: InProgress poll result with the adaptor's 60% progress. -/
def trIP : TaskInfo :=
  { TaskID := "t1", Status := TaskStatusInProgress, Progress := "60%" }

/-- Fixture: Success poll result without usage tokens. -/
def trS0 : TaskInfo :=
  { TaskID := "t1", Status := TaskStatusSuccess, Url := "u", Progress := "100%" }

/-- Fixture: as `envOnes` with clock 5. -/
def envNow5 : Env := { envOnes with now := 5 }

/-- Fixture: as `envOnes` with clock 9. -/
def envNow9 : Env := { envOnes with now := 9 }

/-- Fixture: vendor payload carrying an error code next to a status. -/
def frError : FetchResponse :=
  { id := "v1", status := "running", err := { code := "rate_limited", message := "slow down" } }

/-- Fixture: vendor payload with status running. -/
def frRunning : FetchResponse := { id := "v1", status := "running" }

/-- Fixture: vendor payload with mixed-case queued status. -/
def frQueuedCaps : FetchResponse := { id := "v1", status := "Queued" }

/-- Fixture: vendor payload with succeeded status. -/
def frSucceeded : FetchResponse :=
  { id := "v1", modelName := "m", status := "succeeded",
    content := { video_url := "http://v.example/x.mp4" },
    usage := { completion_tokens := 3, total_tokens := 80 } }

/-- Fixture: vendor payload with an unrecognized status. -/
def frWeird : FetchResponse := { id := "v1", status := "paused" }

/-- Fixture: vendor payload with no status and no error. -/
def frEmpty : FetchResponse := { id := "v1" }

/-- Fixture: the persisted task after a token-free Success pass at clock 5. -/
def task50AfterS0 : Task :=
  { TaskID := "t1", Status := "SUCCESS", Progress := "100%", ModelName := "m",
    Group := "g", UserId := 7, ChannelId := 9, Quota := 50, SubmitTime := 10,
    FinishTime := 5, FailReason := "u" }

end Video

namespace Video

/-! Helper lemmas shared by the claim theorems. -/

/-- The progress override never touches the quota field. -/
theorem finalize_fst_Quota (tr : TaskInfo) (p : Task × List Event) :
    (finalize tr p).1.Quota = p.1.Quota := by
  unfold finalize; split <;> rfl

/-- The settlement step always leaves `task.Quota` equal to the computed
`actualQuota`: it either rewrites it (nonzero delta) or it was already
equal (zero delta). -/
theorem settleSuccess_fst_Quota (env : Env) (task : Task) (tr : TaskInfo) :
    (settleSuccess env task tr).1.Quota = actualQuotaOf env task tr := by
  unfold settleSuccess actualQuotaOf
  dsimp only
  split
  · split
    · rfl
    · next h => dsimp only at h ⊢; omega
  · split
    · rfl
    · next h => dsimp only at h ⊢; omega

/-- Dispatch: a Success-status result takes the Success branch. -/
theorem update_eq_success (env : Env) (task : Task) (tr : TaskInfo)
    (hs : tr.Status = TaskStatusSuccess) :
    updateVideoSingleTask env task tr =
      Except.ok (finalize tr
        (successTransition env { task with Status := TaskStatusSuccess } tr)) := by
  simp [updateVideoSingleTask, hs, TaskStatusSubmitted, TaskStatusQueued,
    TaskStatusInProgress, TaskStatusSuccess, TaskStatusFailure]

/-- Dispatch: a Failure-status result takes the Failure branch. -/
theorem update_eq_failure (env : Env) (task : Task) (tr : TaskInfo)
    (hs : tr.Status = TaskStatusFailure) :
    updateVideoSingleTask env task tr =
      Except.ok (finalize tr
        (failureTransition env { task with Status := TaskStatusFailure } tr)) := by
  simp [updateVideoSingleTask, hs, TaskStatusSubmitted, TaskStatusQueued,
    TaskStatusInProgress, TaskStatusSuccess, TaskStatusFailure]

/-- Dispatch: an InProgress-status result takes the InProgress branch. -/
theorem update_eq_inProgress (env : Env) (task : Task) (tr : TaskInfo)
    (hs : tr.Status = TaskStatusInProgress) :
    updateVideoSingleTask env task tr =
      Except.ok (finalize tr
        (inProgressTransition env { task with Status := TaskStatusInProgress }, [])) := by
  simp [updateVideoSingleTask, hs, TaskStatusSubmitted, TaskStatusQueued,
    TaskStatusInProgress, TaskStatusSuccess, TaskStatusFailure]

/-- The quota stored after a Success transition with usage tokens is the
settlement formula's `actualQuota`. -/
theorem successTransition_fst_Quota (env : Env) (task : Task) (tr : TaskInfo)
    (ht : 0 < tr.TotalTokens) :
    (successTransition env task tr).1.Quota = actualQuotaOf env task tr := by
  unfold successTransition
  dsimp only
  rw [if_pos ht, settleSuccess_fst_Quota]
  rfl

end Video

namespace Video

/-- C1, general part and scenario.  The Settlement Engine stores
`actualQuota` (the truncated rate product, floored to 1 when nonpositive
with a positive model rate, per `settleCalc` / `goTruncInt`) into
`task.Quota` on every Success transition with positive usage tokens; and
the reserved-50 / 80-token / all-rates-1 scenario yields `actualQuota` 80,
delta +30, a user debit of 30, a supplement consumption entry, and
`task.Quota` 80. -/
theorem C1_settlement_truncates :
    (∀ (env : Env) (task : Task) (tr : TaskInfo),
        tr.Status = TaskStatusSuccess → 0 < tr.TotalTokens →
        (updateVideoSingleTask env task tr).toOption.map (fun p => p.1.Quota)
          = some (actualQuotaOf env task tr)) ∧
    updateVideoSingleTask envOnes task50 trS80 = Except.ok (task50Settled, scenarioEvents) ∧
    actualQuotaOf envOnes task50 trS80 = 80 ∧
    task50Settled.Quota - task50.Quota = 30 := by
  refine ⟨?_, ?_, ?_, by decide⟩
  · intro env task tr hs ht
    rw [update_eq_success env task tr hs]
    simp only [Except.toOption, Option.map_some']
    rw [finalize_fst_Quota, successTransition_fst_Quota _ _ _ ht]
    rfl
  · simp [updateVideoSingleTask, envOnes, task50, trS80, task50Settled,
      scenarioEvents, finalize, successTransition, settleSuccess, resolveModelName,
      settleCalc, goTruncInt, TaskStatusSuccess, TaskStatusSubmitted, TaskStatusQueued,
      TaskStatusInProgress, TaskStatusFailure]
  · norm_num [actualQuotaOf, settleCalc, resolveModelName, goTruncInt, envOnes,
      task50, trS80]

/-- C1 witness: the general part of `C1_settlement_truncates` applied to
the scenario fixture. -/
theorem C1_settlement_truncates_witness :
    (updateVideoSingleTask envOnes task50 trS80).toOption.map (fun p => p.1.Quota)
      = some (actualQuotaOf envOnes task50 trS80) :=
  C1_settlement_truncates.1 envOnes task50 trS80 rfl (by decide)

/-- C1 counterexample: Go's `int(...)` conversion truncates, it does not
round.  With completion rate 1/4, 7 usage tokens and the other rates 1 the
product is 1.75: the code stores quota 1, while `round` as claimed gives 2. -/
theorem C1_counterexample :
    updateVideoSingleTask envQuarter { task50 with Quota := 1 } trS7 =
      Except.ok ({ TaskID := "t1", Status := "SUCCESS", Progress := "100%",
                   ModelName := "m", Group := "g", UserId := 7, ChannelId := 9,
                   Quota := 1, SubmitTime := 10, FinishTime := 100,
                   FailReason := "http://v.example/x.mp4" }, []) ∧
    specRound ((7 : ℚ) * (1/4) * 1 * 1) = 2 := by
  constructor
  · simp [updateVideoSingleTask, envQuarter, envOnes, task50, trS7, finalize,
      successTransition, settleSuccess, resolveModelName, settleCalc, goTruncInt,
      TaskStatusSuccess, TaskStatusSubmitted, TaskStatusQueued, TaskStatusInProgress,
      TaskStatusFailure]
    norm_num
  · norm_num [specRound]

end Video

namespace Video

/-- Shared evaluation: the reserved-50 / 80-token / all-rates-1 scenario. -/
theorem eval_scenario80 :
    updateVideoSingleTask envOnes task50 trS80 = Except.ok (task50Settled, scenarioEvents) := by
  simp [updateVideoSingleTask, envOnes, task50, trS80, task50Settled,
    scenarioEvents, finalize, successTransition, settleSuccess, resolveModelName,
    settleCalc, goTruncInt, TaskStatusSuccess, TaskStatusSubmitted, TaskStatusQueued,
    TaskStatusInProgress, TaskStatusFailure]

/-- C2 counterexample: a group-rate lookup of zero is not replaced by 1 and
is not neutral: with 80 tokens and model and completion rates 1, a zero
group rate zeroes the product and the floor yields `actualQuota` 1, while
the same lookup returning the neutral 1 yields 80. -/
theorem C2_counterexample :
    (settleCalc envGroupZero "m" "g" 80).groupRate = 0 ∧
    (settleCalc envGroupZero "m" "g" 80).actualQuota = 1 ∧
    (settleCalc envOnes "m" "g" 80).actualQuota = 80 := by
  refine ⟨?_, ?_, ?_⟩ <;>
    simp [settleCalc, envGroupZero, envOnes, goTruncInt]

/-- C2, amended: only the model rate and the completion rate are replaced
by 1 when their lookup yields zero; the group rate is used as looked up,
and when it is zero the computed quota collapses to the floor value
(1 when the effective model rate is positive, 0 otherwise). -/
theorem C2_rate_replacement :
    ∀ (env : Env) (mn gn : String) (tk : Int),
      (env.getModelRate mn = 0 → (settleCalc env mn gn tk).modelRate = 1) ∧
      (env.getCompletionRate mn = 0 → (settleCalc env mn gn tk).completionRate = 1) ∧
      (settleCalc env mn gn tk).groupRate = env.getGroupRate gn ∧
      (env.getGroupRate gn = 0 →
        (settleCalc env mn gn tk).actualQuota =
          if 0 < (settleCalc env mn gn tk).modelRate then 1 else 0) := by
  intro env mn gn tk
  refine ⟨fun h => ?_, fun h => ?_, ?_, fun h => ?_⟩
  · simp [settleCalc, h]
  · simp [settleCalc, h]
  · simp [settleCalc]
  · simp [settleCalc, h, goTruncInt]

/-- C2 witness: `C2_rate_replacement` at the zero-group-rate fixture. -/
theorem C2_rate_replacement_witness :
    (settleCalc envGroupZero "m" "g" 80).groupRate = envGroupZero.getGroupRate "g" ∧
    (settleCalc envGroupZero "m" "g" 80).actualQuota =
      (if 0 < (settleCalc envGroupZero "m" "g" 80).modelRate then 1 else 0) :=
  ⟨(C2_rate_replacement envGroupZero "m" "g" 80).2.2.1,
   (C2_rate_replacement envGroupZero "m" "g" 80).2.2.2 rfl⟩

end Video

namespace Video

/-- C3: `ParseTaskResult` normalizes with the claimed priority: a
non-empty vendor error code always yields Failure with reason
`code: message`; otherwise an empty status yields Unknown with the
format-mismatch reason; otherwise the lower-cased status maps
queued→Queued 20%, running→InProgress 60%, succeeded→Success 100% with
the result URL and the JSON metadata snapshot as reason, failed→Failure
100% with the vendor message or the generic fallback; any other non-empty
status yields Unknown 0% with the unknown-status reason. -/
theorem C3_parse_priority (fr : FetchResponse) :
    (fr.err.code ≠ "" →
      ParseTaskResult fr = { TaskID := fr.id, Status := TaskStatusFailure, Progress := "100%",
                             Url := "", Reason := fr.err.code ++ ": " ++ fr.err.message,
                             TotalTokens := 0 }) ∧
    (fr.err.code = "" → fr.status = "" →
      ParseTaskResult fr = { TaskID := fr.id, Status := TaskStatusUnknown, Progress := "0%",
                             Url := "", Reason := "未知响应格式", TotalTokens := 0 }) ∧
    (fr.err.code = "" → lowercase fr.status = "queued" →
      ParseTaskResult fr = { TaskID := fr.id, Status := TaskStatusQueued, Progress := "20%",
                             Url := "", Reason := "", TotalTokens := 0 }) ∧
    (fr.err.code = "" → lowercase fr.status = "running" →
      ParseTaskResult fr = { TaskID := fr.id, Status := TaskStatusInProgress, Progress := "60%",
                             Url := "", Reason := "", TotalTokens := 0 }) ∧
    (fr.err.code = "" → lowercase fr.status = "succeeded" →
      ParseTaskResult fr = { TaskID := fr.id, Status := TaskStatusSuccess, Progress := "100%",
                             Url := fr.content.video_url, Reason := successSnapshot fr,
                             TotalTokens := 0 }) ∧
    (fr.err.code = "" → lowercase fr.status = "failed" →
      ParseTaskResult fr = { TaskID := fr.id, Status := TaskStatusFailure, Progress := "100%",
                             Url := "",
                             Reason := if fr.err.message ≠ "" then fr.err.message else "任务执行失败",
                             TotalTokens := 0 }) ∧
    (fr.err.code = "" → fr.status ≠ "" →
      lowercase fr.status ≠ "queued" → lowercase fr.status ≠ "running" →
      lowercase fr.status ≠ "succeeded" → lowercase fr.status ≠ "failed" →
      ParseTaskResult fr = { TaskID := fr.id, Status := TaskStatusUnknown, Progress := "0%",
                             Url := "", Reason := "未知状态: " ++ fr.status,
                             TotalTokens := 0 }) := by
  have hlow : ∀ s : String, s = "" → lowercase s = "" := by
    intro s hs; rw [hs]; rfl
  refine ⟨fun h => ?_, fun h1 h2 => ?_, fun h1 h2 => ?_, fun h1 h2 => ?_,
    fun h1 h2 => ?_, fun h1 h2 => ?_, fun h1 h2 h3 h4 h5 h6 => ?_⟩
  · simp [ParseTaskResult, h]
  · simp [ParseTaskResult, h1, h2]
  · have hne : fr.status ≠ "" := fun h0 => by simp [hlow fr.status h0] at h2
    simp [ParseTaskResult, h1, h2, hne]
  · have hne : fr.status ≠ "" := fun h0 => by simp [hlow fr.status h0] at h2
    simp [ParseTaskResult, h1, h2, hne]
  · have hne : fr.status ≠ "" := fun h0 => by simp [hlow fr.status h0] at h2
    simp [ParseTaskResult, h1, h2, hne]
  · have hne : fr.status ≠ "" := fun h0 => by simp [hlow fr.status h0] at h2
    simp [ParseTaskResult, h1, h2, hne]
  · simp [ParseTaskResult, h1, h2, h3, h4, h5, h6]

/-- C3 witness: the error-code-wins clause at a payload that also carries
a status, and the running clause. -/
theorem C3_parse_priority_witness :
    ParseTaskResult frError =
      { TaskID := frError.id, Status := TaskStatusFailure, Progress := "100%",
        Url := "", Reason := frError.err.code ++ ": " ++ frError.err.message,
        TotalTokens := 0 } ∧
    ParseTaskResult frRunning =
      { TaskID := frRunning.id, Status := TaskStatusInProgress, Progress := "60%",
        Url := "", Reason := "", TotalTokens := 0 } :=
  ⟨(C3_parse_priority frError).1 (by decide),
   (C3_parse_priority frRunning).2.2.2.1 rfl (by decide)⟩

end Video

namespace Video

/-- The progress override touches nothing but the progress field and the
event list not at all. -/
theorem finalize_frame (tr : TaskInfo) (p : Task × List Event) :
    (finalize tr p).1.Status = p.1.Status ∧
    (finalize tr p).1.FinishTime = p.1.FinishTime ∧
    (finalize tr p).1.StartTime = p.1.StartTime ∧
    (finalize tr p).1.FailReason = p.1.FailReason ∧
    (finalize tr p).1.ModelName = p.1.ModelName ∧
    (finalize tr p).1.Data = p.1.Data ∧
    (finalize tr p).1.Group = p.1.Group ∧
    (finalize tr p).2 = p.2 := by
  unfold finalize; split <;> exact ⟨rfl, rfl, rfl, rfl, rfl, rfl, rfl, rfl⟩

/-- A non-empty result progress always wins in the persisted record. -/
theorem finalize_fst_Progress_of_ne (tr : TaskInfo) (p : Task × List Event)
    (hp : tr.Progress ≠ "") : (finalize tr p).1.Progress = tr.Progress := by
  unfold finalize; rw [if_pos hp]

/-- With a non-empty result progress the override rewrites the progress. -/
theorem finalize_of_ne (tr : TaskInfo) (p : Task × List Event)
    (hp : tr.Progress ≠ "") :
    finalize tr p = ({ p.1 with Progress := tr.Progress }, p.2) := by
  unfold finalize; rw [if_pos hp]

/-- With an empty result progress the override does nothing. -/
theorem finalize_of_empty (tr : TaskInfo) (p : Task × List Event)
    (hp : tr.Progress = "") : finalize tr p = p := by
  unfold finalize; rw [if_neg (fun hne => hne hp)]

/-- C4 counterexample: a Failure transition on a task whose stored quota is
0 performs no ledger call at all — in particular no system log entry is
written, against the claim that one always is. -/
theorem C4_counterexample :
    updateVideoSingleTask envOnes { task50 with Quota := 0 } trFail =
      Except.ok ({ TaskID := "t1", Status := "FAILURE", Progress := "100%",
                   ModelName := "m", Group := "g", UserId := 7, ChannelId := 9,
                   Quota := 0, SubmitTime := 10, FinishTime := 100,
                   FailReason := "boom" }, []) := by
  simp [updateVideoSingleTask, envOnes, task50, trFail, finalize, failureTransition,
    TaskStatusSuccess, TaskStatusSubmitted, TaskStatusQueued, TaskStatusInProgress,
    TaskStatusFailure]

/-- C4, amended: a Failure result sets the status to Failure, progress to
100% (unless an explicit result progress overrides it), the finish time if
unset, copies the reason, leaves `task.Quota` unchanged, and — exactly when
`task.Quota ≠ 0` — issues the full-quota credit and one system log entry
(the log is written even if the credit call fails); when `task.Quota = 0`
no ledger call and no log entry happen. -/
theorem C4_failure_refund :
    ∀ (env : Env) (task : Task) (tr : TaskInfo), tr.Status = TaskStatusFailure →
      ∃ t' evs, updateVideoSingleTask env task tr = Except.ok (t', evs) ∧
        t'.Status = TaskStatusFailure ∧
        t'.Progress = (if tr.Progress ≠ "" then tr.Progress else "100%") ∧
        t'.FinishTime = (if task.FinishTime = 0 then env.now else task.FinishTime) ∧
        t'.FailReason = tr.Reason ∧
        t'.Quota = task.Quota ∧
        evs = (if task.Quota ≠ 0 then
                 [Event.increaseUserQuota task.UserId task.Quota env.increaseUserQuotaOk,
                  Event.recordLog task.UserId ("Video async task failed " ++ task.TaskID)]
               else []) := by
  intro env task tr hs
  rw [update_eq_failure env task tr hs]
  unfold failureTransition
  dsimp only
  by_cases hq : task.Quota ≠ 0
  · rw [if_pos hq]
    by_cases hp : tr.Progress ≠ ""
    · rw [finalize_of_ne tr _ hp]
      refine ⟨_, _, rfl, rfl, ?_, rfl, rfl, rfl, ?_⟩
      · rw [if_pos hp]
      · rw [if_pos hq]
    · rw [finalize_of_empty tr _ (not_not.mp hp)]
      refine ⟨_, _, rfl, rfl, ?_, rfl, rfl, rfl, ?_⟩
      · rw [if_neg hp]
      · rw [if_pos hq]
  · rw [if_neg hq]
    by_cases hp : tr.Progress ≠ ""
    · rw [finalize_of_ne tr _ hp]
      refine ⟨_, _, rfl, rfl, ?_, rfl, rfl, rfl, ?_⟩
      · rw [if_pos hp]
      · rw [if_neg hq]
    · rw [finalize_of_empty tr _ (not_not.mp hp)]
      refine ⟨_, _, rfl, rfl, ?_, rfl, rfl, rfl, ?_⟩
      · rw [if_neg hp]
      · rw [if_neg hq]

/-- C4 witness: `C4_failure_refund` at the reserved-50 failure fixture. -/
theorem C4_failure_refund_witness :
    ∃ t' evs, updateVideoSingleTask envOnes task50 trFail = Except.ok (t', evs) ∧
      t'.Status = TaskStatusFailure ∧
      t'.Progress = (if trFail.Progress ≠ "" then trFail.Progress else "100%") ∧
      t'.FinishTime = (if task50.FinishTime = 0 then envOnes.now else task50.FinishTime) ∧
      t'.FailReason = trFail.Reason ∧
      t'.Quota = task50.Quota ∧
      evs = (if task50.Quota ≠ 0 then
               [Event.increaseUserQuota task50.UserId task50.Quota envOnes.increaseUserQuotaOk,
                Event.recordLog task50.UserId ("Video async task failed " ++ task50.TaskID)]
             else []) :=
  C4_failure_refund envOnes task50 trFail rfl

end Video

namespace Video

/-- The settlement step touches no field but the quota. -/
theorem settleSuccess_frame (env : Env) (task : Task) (tr : TaskInfo) :
    (settleSuccess env task tr).1.ModelName = task.ModelName ∧
    (settleSuccess env task tr).1.Data = task.Data ∧
    (settleSuccess env task tr).1.Group = task.Group ∧
    (settleSuccess env task tr).1.StartTime = task.StartTime ∧
    (settleSuccess env task tr).1.FinishTime = task.FinishTime ∧
    (settleSuccess env task tr).1.Status = task.Status ∧
    (settleSuccess env task tr).1.Progress = task.Progress ∧
    (settleSuccess env task tr).1.FailReason = task.FailReason := by
  unfold settleSuccess
  dsimp only
  split <;> split <;> exact ⟨rfl, rfl, rfl, rfl, rfl, rfl, rfl, rfl⟩

/-- The Success branch never changes model name, raw data, group, start
time or status. -/
theorem successTransition_frame (env : Env) (task : Task) (tr : TaskInfo) :
    (successTransition env task tr).1.ModelName = task.ModelName ∧
    (successTransition env task tr).1.Data = task.Data ∧
    (successTransition env task tr).1.Group = task.Group ∧
    (successTransition env task tr).1.StartTime = task.StartTime ∧
    (successTransition env task tr).1.Status = task.Status := by
  unfold successTransition
  dsimp only
  split
  · exact ⟨(settleSuccess_frame env _ tr).1, (settleSuccess_frame env _ tr).2.1,
      (settleSuccess_frame env _ tr).2.2.1, (settleSuccess_frame env _ tr).2.2.2.1,
      (settleSuccess_frame env _ tr).2.2.2.2.2.1⟩
  · exact ⟨rfl, rfl, rfl, rfl, rfl⟩

/-- When the computed quota equals the stored quota the settlement step is
a no-op: no ledger call and no quota rewrite. -/
theorem settleSuccess_delta_zero (env : Env) (task : Task) (tr : TaskInfo)
    (h0 : actualQuotaOf env task tr = task.Quota) :
    settleSuccess env task tr = (task, []) := by
  have hc : ¬((settleCalc env (resolveModelName env task.ModelName tr.Reason task.Data)
      (if task.Group = "" then "default" else task.Group) tr.TotalTokens).actualQuota
        - task.Quota ≠ 0) := by
    unfold actualQuotaOf at h0; omega
  unfold settleSuccess
  dsimp only
  rw [if_neg hc]

/-- A Success transition whose computed quota equals the stored quota
performs the status-field updates but no settlement action. -/
theorem successTransition_delta_zero (env : Env) (task : Task) (tr : TaskInfo)
    (ht : 0 < tr.TotalTokens) (h0 : actualQuotaOf env task tr = task.Quota) :
    successTransition env task tr =
      ({ task with
         Progress := "100%"
         FinishTime := if task.FinishTime = 0 then env.now else task.FinishTime
         FailReason := tr.Url }, []) := by
  unfold successTransition
  dsimp only
  rw [if_pos ht]
  exact settleSuccess_delta_zero env _ tr h0

/-- A delta-zero Success poll yields an ok update with no events and the
quota unchanged. -/
theorem update_success_delta_zero (env : Env) (task : Task) (tr : TaskInfo)
    (hs : tr.Status = TaskStatusSuccess) (ht : 0 < tr.TotalTokens)
    (h0 : actualQuotaOf env task tr = task.Quota) :
    ∃ t2, updateVideoSingleTask env task tr = Except.ok (t2, []) ∧
      t2.Quota = task.Quota := by
  rw [update_eq_success env task tr hs,
    successTransition_delta_zero env { task with Status := TaskStatusSuccess } tr ht h0]
  by_cases hp : tr.Progress ≠ ""
  · rw [finalize_of_ne tr _ hp]
    exact ⟨_, rfl, rfl⟩
  · rw [finalize_of_empty tr _ (not_not.mp hp)]
    exact ⟨_, rfl, rfl⟩

/-- The quota stored by an ok Success poll is the settlement formula's
`actualQuota`. -/
theorem update_success_Quota (env : Env) (task : Task) (tr : TaskInfo)
    (t1 : Task) (evs1 : List Event)
    (hs : tr.Status = TaskStatusSuccess) (ht : 0 < tr.TotalTokens)
    (h : updateVideoSingleTask env task tr = Except.ok (t1, evs1)) :
    t1.Quota = actualQuotaOf env task tr := by
  rw [update_eq_success env task tr hs] at h
  injection h with h'
  have h1 := congrArg Prod.fst h'
  dsimp only at h1
  rw [← h1, finalize_fst_Quota, successTransition_fst_Quota _ _ _ ht]
  rfl

/-- An ok Success poll never changes model name, raw data or group. -/
theorem update_success_frame (env : Env) (task : Task) (tr : TaskInfo)
    (t1 : Task) (evs1 : List Event) (hs : tr.Status = TaskStatusSuccess)
    (h : updateVideoSingleTask env task tr = Except.ok (t1, evs1)) :
    t1.ModelName = task.ModelName ∧ t1.Data = task.Data ∧ t1.Group = task.Group := by
  rw [update_eq_success env task tr hs] at h
  injection h with h'
  have h1 := congrArg Prod.fst h'
  dsimp only at h1
  rw [← h1]
  have hf := finalize_frame tr (successTransition env { task with Status := TaskStatusSuccess } tr)
  have hs' := successTransition_frame env { task with Status := TaskStatusSuccess } tr
  exact ⟨by rw [hf.2.2.2.2.1, hs'.1], by rw [hf.2.2.2.2.2.1, hs'.2.1],
    by rw [hf.2.2.2.2.2.2.1, hs'.2.2.1]⟩

/-- The settlement formula only reads the model name, data and group of
the task. -/
theorem actualQuotaOf_congr (env : Env) (t t' : Task) (tr : TaskInfo)
    (hM : t.ModelName = t'.ModelName) (hD : t.Data = t'.Data)
    (hG : t.Group = t'.Group) :
    actualQuotaOf env t tr = actualQuotaOf env t' tr := by
  unfold actualQuotaOf; rw [hM, hD, hG]

/-- C5: settlement is idempotent in its quota result — after one ok
Success poll `task.Quota` equals `actualQuota`, so a second poll with the
same usage tokens and rates computes delta 0, performs no ledger action,
and leaves the quota unchanged. -/
theorem C5_settlement_idempotent :
    ∀ (env : Env) (task : Task) (tr : TaskInfo) (t1 : Task) (evs1 : List Event),
      tr.Status = TaskStatusSuccess → 0 < tr.TotalTokens →
      updateVideoSingleTask env task tr = Except.ok (t1, evs1) →
      t1.Quota = actualQuotaOf env task tr ∧
      ∃ t2, updateVideoSingleTask env t1 tr = Except.ok (t2, []) ∧
        t2.Quota = t1.Quota := by
  intro env task tr t1 evs1 hs ht h1
  have hq := update_success_Quota env task tr t1 evs1 hs ht h1
  have hfr := update_success_frame env task tr t1 evs1 hs h1
  have h0 : actualQuotaOf env t1 tr = t1.Quota := by
    rw [actualQuotaOf_congr env t1 task tr hfr.1 hfr.2.1 hfr.2.2]
    exact hq.symm
  exact ⟨hq, update_success_delta_zero env t1 tr hs ht h0⟩

/-- C5 witness: `C5_settlement_idempotent` on the reserved-50 / 80-token
scenario. -/
theorem C5_settlement_idempotent_witness :
    task50Settled.Quota = actualQuotaOf envOnes task50 trS80 ∧
    ∃ t2, updateVideoSingleTask envOnes task50Settled trS80 = Except.ok (t2, []) ∧
      t2.Quota = task50Settled.Quota :=
  C5_settlement_idempotent envOnes task50 trS80 task50Settled scenarioEvents rfl
    (by decide) eval_scenario80

end Video

namespace Video

/-- Any status outside the five handled cases — including the enum's own
Unknown — hits the switch's error default. -/
theorem update_err_unhandled (env : Env) (task : Task) (tr : TaskInfo)
    (h0 : tr.Status ≠ "") (h1 : tr.Status ≠ TaskStatusSubmitted)
    (h2 : tr.Status ≠ TaskStatusQueued) (h3 : tr.Status ≠ TaskStatusInProgress)
    (h4 : tr.Status ≠ TaskStatusSuccess) (h5 : tr.Status ≠ TaskStatusFailure) :
    updateVideoSingleTask env task tr =
      Except.error ("unknown task status " ++ tr.Status ++ " for task " ++ task.TaskID) := by
  simp [updateVideoSingleTask, h0, h1, h2, h3, h4, h5]

/-- C6 counterexample: a normalized Unknown result does produce a
reconciliation error — the same error path as a status outside the enum —
rather than being silently retried without error. -/
theorem C6_counterexample :
    updateVideoSingleTask envOnes task50 trUnknown =
      Except.error ("unknown task status " ++ trUnknown.Status ++ " for task " ++ task50.TaskID) :=
  update_err_unhandled envOnes task50 trUnknown (by decide) (by decide) (by decide)
    (by decide) (by decide) (by decide)

/-- C6, amended: an Unknown status is not a handled switch case: it yields
the per-task reconciliation error exactly like any status outside the five
handled ones; no effect is applied (the persisted task is unchanged, so
the task is retried on the next poll) and the channel batch continues with
the remaining tasks. -/
theorem C6_unknown_is_error :
    ∀ (env : Env) (task : Task) (tr : TaskInfo), tr.Status = TaskStatusUnknown →
      updateVideoSingleTask env task tr =
        Except.error ("unknown task status " ++ tr.Status ++ " for task " ++ task.TaskID) ∧
      (∀ ps, runPasses task ((env, tr) :: ps) = runPasses task ps) ∧
      (∀ ps, updateVideoTasksLoop env ((task, tr) :: ps) =
          updateVideoSingleTask env task tr :: updateVideoTasksLoop env ps) := by
  intro env task tr hs
  have herr := update_err_unhandled env task tr (by rw [hs]; decide) (by rw [hs]; decide)
    (by rw [hs]; decide) (by rw [hs]; decide) (by rw [hs]; decide) (by rw [hs]; decide)
  refine ⟨herr, fun ps => ?_, fun ps => ?_⟩
  · simp only [runPasses]
    rw [herr]
  · simp [updateVideoTasksLoop]

/-- C6 witness: `C6_unknown_is_error` at the Unknown fixture. -/
theorem C6_unknown_is_error_witness :
    updateVideoSingleTask envOnes task50 trUnknown =
      Except.error ("unknown task status " ++ trUnknown.Status ++ " for task " ++ task50.TaskID) ∧
    runPasses task50 [(envOnes, trUnknown)] = runPasses task50 [] :=
  ⟨(C6_unknown_is_error envOnes task50 trUnknown rfl).1,
   (C6_unknown_is_error envOnes task50 trUnknown rfl).2.1 []⟩

/-- C7: a non-empty progress string in the normalized result overwrites
the branch default in the persisted record (last writer wins); in
particular a vendor "running" payload parsed by the adaptor is persisted
with the adaptor's 60%, not the Reconciler's default 30%. -/
theorem C7_progress_override :
    (∀ (env : Env) (task : Task) (tr : TaskInfo) (t' : Task) (evs : List Event),
        tr.Progress ≠ "" →
        updateVideoSingleTask env task tr = Except.ok (t', evs) →
        t'.Progress = tr.Progress) ∧
    (∀ (env : Env) (task : Task) (fr : FetchResponse),
        fr.err.code = "" → lowercase fr.status = "running" →
        (updateVideoSingleTask env task (ParseTaskResult fr)).toOption.map
          (fun p => p.1.Progress) = some "60%") := by
  constructor
  · intro env task tr t' evs hp h
    unfold updateVideoSingleTask at h
    dsimp only at h
    split_ifs at h <;>
      first
        | exact Except.noConfusion h
        | (injection h with h'
           have h1 := congrArg Prod.fst h'
           dsimp only at h1
           rw [← h1, finalize_fst_Progress_of_ne tr _ hp])
  · intro env task fr h1 h2
    have hne : fr.status ≠ "" := by
      intro h0
      rw [show lowercase fr.status = "" by rw [h0]; rfl] at h2
      exact absurd h2 (by decide)
    have hpr : ParseTaskResult fr =
        { TaskID := fr.id, Status := TaskStatusInProgress, Progress := "60%",
          Url := "", Reason := "", TotalTokens := 0 } := by
      simp [ParseTaskResult, h1, h2, hne]
    rw [hpr, update_eq_inProgress env task _ rfl, finalize_of_ne]
    · rfl
    · dsimp only
      decide

/-- C7 witness: the override on the 80-token scenario and the
running-payload composition. -/
theorem C7_progress_override_witness :
    task50Settled.Progress = trS80.Progress ∧
    (updateVideoSingleTask envOnes task50 (ParseTaskResult frRunning)).toOption.map
      (fun p => p.1.Progress) = some "60%" :=
  ⟨C7_progress_override.1 envOnes task50 trS80 task50Settled scenarioEvents
      (by decide) eval_scenario80,
   C7_progress_override.2 envOnes task50 frRunning rfl (by decide)⟩

end Video

namespace Video

/-- The finish time after a Success branch: first-write-wins. -/
theorem successTransition_fst_FinishTime (env : Env) (task : Task) (tr : TaskInfo) :
    (successTransition env task tr).1.FinishTime =
      (if task.FinishTime = 0 then env.now else task.FinishTime) := by
  unfold successTransition
  dsimp only
  split
  · rw [(settleSuccess_frame env _ tr).2.2.2.2.1]
  · rfl

/-- The Failure branch never touches the start time, and its finish time
is first-write-wins. -/
theorem failureTransition_frame_times (env : Env) (task : Task) (tr : TaskInfo) :
    (failureTransition env task tr).1.StartTime = task.StartTime ∧
    (failureTransition env task tr).1.FinishTime =
      (if task.FinishTime = 0 then env.now else task.FinishTime) := by
  unfold failureTransition
  dsimp only
  split <;> exact ⟨rfl, rfl⟩

/-- One ok reconciliation pass changes `start_time` only from 0, only on
an InProgress result, and `finish_time` only from 0, only on a Success or
Failure result; otherwise both are carried over unchanged. -/
theorem update_times (env : Env) (task : Task) (tr : TaskInfo) (t' : Task)
    (evs : List Event)
    (h : updateVideoSingleTask env task tr = Except.ok (t', evs)) :
    (t'.StartTime = task.StartTime ∨
      (task.StartTime = 0 ∧ tr.Status = TaskStatusInProgress ∧ t'.StartTime = env.now)) ∧
    (t'.FinishTime = task.FinishTime ∨
      (task.FinishTime = 0 ∧ (tr.Status = TaskStatusSuccess ∨ tr.Status = TaskStatusFailure) ∧
        t'.FinishTime = env.now)) := by
  unfold updateVideoSingleTask at h
  dsimp only at h
  split_ifs at h
  · injection h with h'
    have h1 := congrArg Prod.fst h'
    dsimp only at h1
    rw [← h1]
    constructor
    · left; rw [(finalize_frame tr _).2.2.1]
    · left; rw [(finalize_frame tr _).2.1]
  · injection h with h'
    have h1 := congrArg Prod.fst h'
    dsimp only at h1
    rw [← h1]
    constructor
    · left; rw [(finalize_frame tr _).2.2.1]
    · left; rw [(finalize_frame tr _).2.1]
  · injection h with h'
    have h1 := congrArg Prod.fst h'
    dsimp only at h1
    rw [← h1]
    constructor
    · by_cases hst : task.StartTime = 0
      · right
        refine ⟨hst, ‹tr.Status = TaskStatusInProgress›, ?_⟩
        rw [(finalize_frame tr _).2.2.1]
        simp only [inProgressTransition]
        rw [if_pos hst]
      · left
        rw [(finalize_frame tr _).2.2.1]
        simp only [inProgressTransition]
        rw [if_neg hst]
    · left; rw [(finalize_frame tr _).2.1]; rfl
  · injection h with h'
    have h1 := congrArg Prod.fst h'
    dsimp only at h1
    rw [← h1]
    constructor
    · left
      rw [(finalize_frame tr _).2.2.1, (successTransition_frame env _ tr).2.2.2.1]
    · by_cases hf : task.FinishTime = 0
      · right
        refine ⟨hf, Or.inl ‹tr.Status = TaskStatusSuccess›, ?_⟩
        rw [(finalize_frame tr _).2.1, successTransition_fst_FinishTime env _ tr]
        exact if_pos hf
      · left
        rw [(finalize_frame tr _).2.1, successTransition_fst_FinishTime env _ tr]
        exact if_neg hf
  · injection h with h'
    have h1 := congrArg Prod.fst h'
    dsimp only at h1
    rw [← h1]
    constructor
    · left
      rw [(finalize_frame tr _).2.2.1, (failureTransition_frame_times env _ tr).1]
    · by_cases hf : task.FinishTime = 0
      · right
        refine ⟨hf, Or.inr ‹tr.Status = TaskStatusFailure›, ?_⟩
        rw [(finalize_frame tr _).2.1, (failureTransition_frame_times env _ tr).2]
        exact if_pos hf
      · left
        rw [(finalize_frame tr _).2.1, (failureTransition_frame_times env _ tr).2]
        exact if_neg hf

/-- A nonzero start time survives every sequence of passes. -/
theorem runPasses_StartTime (task : Task) (passes : List (Env × TaskInfo))
    (h : task.StartTime ≠ 0) :
    (runPasses task passes).StartTime = task.StartTime := by
  induction passes generalizing task with
  | nil => rfl
  | cons p rest ih =>
      simp only [runPasses]
      cases hu : updateVideoSingleTask p.1 task p.2 with
      | error e => exact ih task h
      | ok q =>
          have ht := update_times p.1 task p.2 q.1 q.2 (by rw [hu])
          rcases ht.1 with heq | ⟨h0, _, _⟩
          · rw [ih q.1 (by rw [heq]; exact h)]
            exact heq
          · exact absurd h0 h

/-- A nonzero finish time survives every sequence of passes. -/
theorem runPasses_FinishTime (task : Task) (passes : List (Env × TaskInfo))
    (h : task.FinishTime ≠ 0) :
    (runPasses task passes).FinishTime = task.FinishTime := by
  induction passes generalizing task with
  | nil => rfl
  | cons p rest ih =>
      simp only [runPasses]
      cases hu : updateVideoSingleTask p.1 task p.2 with
      | error e => exact ih task h
      | ok q =>
          have ht := update_times p.1 task p.2 q.1 q.2 (by rw [hu])
          rcases ht.2 with heq | ⟨h0, _, _⟩
          · rw [ih q.1 (by rw [heq]; exact h)]
            exact heq
          · exact absurd h0 h

/-- C8 counterexample: starting from an unstarted, unfinished task, a
Success pass at clock 5 (the first transition into InProgress-or-later)
does not assign `start_time`; a later InProgress pass at clock 9 then
assigns it — so `start_time` is not assigned on the first transition into
InProgress or later. -/
theorem C8_counterexample :
    (runPasses task50 [(envNow5, trS0)]).StartTime = 0 ∧
    (runPasses task50 [(envNow5, trS0)]).FinishTime = 5 ∧
    (runPasses task50 [(envNow5, trS0), (envNow9, trIP)]).StartTime = 9 := by
  refine ⟨?_, ?_, ?_⟩ <;> decide

/-- C8, amended: across every sequence of passes, `finish_time` is
assigned at most once, only on a pass whose result is Success or Failure
finding it unset, and is never overwritten once nonzero; `start_time` is
assigned at most once, only on a pass whose result is InProgress finding it
unset (not on a direct jump to a terminal status, so a later InProgress
pass can be the one that assigns it), and is never overwritten once
nonzero. -/
theorem C8_timestamps :
    (∀ (env : Env) (task : Task) (tr : TaskInfo) (t' : Task) (evs : List Event),
        updateVideoSingleTask env task tr = Except.ok (t', evs) →
        (t'.StartTime = task.StartTime ∨
          (task.StartTime = 0 ∧ tr.Status = TaskStatusInProgress ∧ t'.StartTime = env.now)) ∧
        (t'.FinishTime = task.FinishTime ∨
          (task.FinishTime = 0 ∧ (tr.Status = TaskStatusSuccess ∨ tr.Status = TaskStatusFailure) ∧
            t'.FinishTime = env.now))) ∧
    (∀ (task : Task) (passes : List (Env × TaskInfo)), task.StartTime ≠ 0 →
        (runPasses task passes).StartTime = task.StartTime) ∧
    (∀ (task : Task) (passes : List (Env × TaskInfo)), task.FinishTime ≠ 0 →
        (runPasses task passes).FinishTime = task.FinishTime) :=
  ⟨update_times, runPasses_StartTime, runPasses_FinishTime⟩

end Video

namespace Video

/-- Shared evaluation: a token-free Success pass at clock 5. -/
theorem eval_pass_trS0 :
    updateVideoSingleTask envNow5 task50 trS0 = Except.ok (task50AfterS0, []) := by
  simp [updateVideoSingleTask, envNow5, envOnes, task50, trS0, task50AfterS0,
    finalize, successTransition, TaskStatusSuccess, TaskStatusSubmitted,
    TaskStatusQueued, TaskStatusInProgress, TaskStatusFailure]

/-- C8 witness: `C8_timestamps` on a concrete pass and on sequences
starting from already-set timestamps. -/
theorem C8_timestamps_witness :
    ((task50AfterS0.StartTime = task50.StartTime ∨
        (task50.StartTime = 0 ∧ trS0.Status = TaskStatusInProgress ∧
          task50AfterS0.StartTime = envNow5.now)) ∧
      (task50AfterS0.FinishTime = task50.FinishTime ∨
        (task50.FinishTime = 0 ∧
          (trS0.Status = TaskStatusSuccess ∨ trS0.Status = TaskStatusFailure) ∧
          task50AfterS0.FinishTime = envNow5.now))) ∧
    (runPasses { task50 with StartTime := 3 } [(envNow5, trS0)]).StartTime =
      ({ task50 with StartTime := 3 } : Task).StartTime ∧
    (runPasses { task50 with FinishTime := 4 } [(envNow5, trS0)]).FinishTime =
      ({ task50 with FinishTime := 4 } : Task).FinishTime :=
  ⟨C8_timestamps.1 envNow5 task50 trS0 task50AfterS0 [] eval_pass_trS0,
   C8_timestamps.2.1 _ _ (by decide),
   C8_timestamps.2.2 _ _ (by decide)⟩

/-- C9: when the channel-info lookup fails, every task of the (non-empty)
batch is bulk-updated, no ledger event happens, and the bulk update writes
exactly the three fields fail reason, status "FAILURE" and progress
"100%", leaving finish time, start time, quota and every other field
untouched. -/
theorem C9_channel_failure_frame :
    ∀ (env : Env) (channelId : Int) (ps : List (Task × TaskInfo)), ps ≠ [] →
      updateVideoTaskAllModel env false channelId ps =
        (ps.map fun p => channelFailureBulkUpdate channelId p.1, []) ∧
      ∀ t : Task,
        (channelFailureBulkUpdate channelId t).Status = "FAILURE" ∧
        (channelFailureBulkUpdate channelId t).Progress = "100%" ∧
        (channelFailureBulkUpdate channelId t).FailReason =
          "Failed to get channel info, channel ID: " ++ toString channelId ∧
        (channelFailureBulkUpdate channelId t).FinishTime = t.FinishTime ∧
        (channelFailureBulkUpdate channelId t).StartTime = t.StartTime ∧
        (channelFailureBulkUpdate channelId t).Quota = t.Quota ∧
        (channelFailureBulkUpdate channelId t).UserId = t.UserId ∧
        (channelFailureBulkUpdate channelId t).ModelName = t.ModelName ∧
        (channelFailureBulkUpdate channelId t).Group = t.Group ∧
        (channelFailureBulkUpdate channelId t).SubmitTime = t.SubmitTime ∧
        (channelFailureBulkUpdate channelId t).TaskID = t.TaskID := by
  intro env channelId ps hne
  constructor
  · unfold updateVideoTaskAllModel
    rw [if_neg (by simp [hne]), if_pos rfl]
  · intro t
    exact ⟨rfl, rfl, rfl, rfl, rfl, rfl, rfl, rfl, rfl, rfl, rfl⟩

/-- C9 witness: `C9_channel_failure_frame` on a one-task batch. -/
theorem C9_channel_failure_frame_witness :
    updateVideoTaskAllModel envOnes false 42 [(task50, trS80)] =
      ([(task50, trS80)].map fun p => channelFailureBulkUpdate 42 p.1, []) ∧
    ∀ t : Task,
      (channelFailureBulkUpdate 42 t).Status = "FAILURE" ∧
      (channelFailureBulkUpdate 42 t).Progress = "100%" ∧
      (channelFailureBulkUpdate 42 t).FailReason =
        "Failed to get channel info, channel ID: " ++ toString (42 : Int) ∧
      (channelFailureBulkUpdate 42 t).FinishTime = t.FinishTime ∧
      (channelFailureBulkUpdate 42 t).StartTime = t.StartTime ∧
      (channelFailureBulkUpdate 42 t).Quota = t.Quota ∧
      (channelFailureBulkUpdate 42 t).UserId = t.UserId ∧
      (channelFailureBulkUpdate 42 t).ModelName = t.ModelName ∧
      (channelFailureBulkUpdate 42 t).Group = t.Group ∧
      (channelFailureBulkUpdate 42 t).SubmitTime = t.SubmitTime ∧
      (channelFailureBulkUpdate 42 t).TaskID = t.TaskID :=
  C9_channel_failure_frame envOnes 42 [(task50, trS80)] (by decide)

end Video

namespace Video

/-- With a positive delta and a failing debit call, the settlement step
still rewrites the quota; the only ledger event is the failed debit
attempt — no consumption entry, no aggregate-usage update. -/
theorem settleSuccess_debit_failed (env : Env) (task : Task) (tr : TaskInfo)
    (hko : env.decreaseUserQuotaOk = false)
    (hd : task.Quota < actualQuotaOf env task tr) :
    settleSuccess env task tr =
      ({ task with Quota := actualQuotaOf env task tr },
       [Event.decreaseUserQuota task.UserId
         (actualQuotaOf env task tr - task.Quota) false]) := by
  have hne : (settleCalc env (resolveModelName env task.ModelName tr.Reason task.Data)
      (if task.Group = "" then "default" else task.Group) tr.TotalTokens).actualQuota
        - task.Quota ≠ 0 := by
    unfold actualQuotaOf at hd; omega
  have hpos : 0 < (settleCalc env (resolveModelName env task.ModelName tr.Reason task.Data)
      (if task.Group = "" then "default" else task.Group) tr.TotalTokens).actualQuota
        - task.Quota := by
    unfold actualQuotaOf at hd; omega
  unfold settleSuccess
  dsimp only
  rw [if_pos hne, if_pos hpos, hko]
  rfl

/-- The Success branch under a failing debit: field updates, quota
rewritten, and only the failed debit attempt recorded. -/
theorem successTransition_debit_failed (env : Env) (task : Task) (tr : TaskInfo)
    (ht : 0 < tr.TotalTokens) (hko : env.decreaseUserQuotaOk = false)
    (hd : task.Quota < actualQuotaOf env task tr) :
    successTransition env task tr =
      ({ task with
         Progress := "100%"
         FinishTime := if task.FinishTime = 0 then env.now else task.FinishTime
         FailReason := tr.Url
         Quota := actualQuotaOf env task tr },
       [Event.decreaseUserQuota task.UserId
         (actualQuotaOf env task tr - task.Quota) false]) := by
  unfold successTransition
  dsimp only
  rw [if_pos ht]
  exact settleSuccess_debit_failed env
    { task with
      Progress := "100%"
      FinishTime := if task.FinishTime = 0 then env.now else task.FinishTime
      FailReason := tr.Url } tr hko hd

/-- C10: on a supplement settlement whose user-quota debit fails,
`task.Quota` is still rewritten to `actualQuota` (the assignment is
unconditional on the ledger outcome), the only ledger event is the failed
debit attempt, and the next poll with the same result computes delta 0 and
performs no ledger action — the shortfall is never collected. -/
theorem C10_quota_rewritten_on_failed_debit :
    ∀ (env : Env) (task : Task) (tr : TaskInfo),
      tr.Status = TaskStatusSuccess → 0 < tr.TotalTokens →
      env.decreaseUserQuotaOk = false →
      task.Quota < actualQuotaOf env task tr →
      ∃ t1, updateVideoSingleTask env task tr =
          Except.ok (t1, [Event.decreaseUserQuota task.UserId
            (actualQuotaOf env task tr - task.Quota) false]) ∧
        t1.Quota = actualQuotaOf env task tr ∧
        ∃ t2, updateVideoSingleTask env t1 tr = Except.ok (t2, []) ∧
          t2.Quota = t1.Quota := by
  intro env task tr hs ht hko hd
  rw [update_eq_success env task tr hs,
    successTransition_debit_failed env { task with Status := TaskStatusSuccess } tr ht hko hd]
  by_cases hp : tr.Progress ≠ ""
  · rw [finalize_of_ne tr _ hp]
    refine ⟨_, rfl, rfl, ?_⟩
    refine update_success_delta_zero env _ tr hs ht ?_
    rfl
  · rw [finalize_of_empty tr _ (not_not.mp hp)]
    refine ⟨_, rfl, rfl, ?_⟩
    refine update_success_delta_zero env _ tr hs ht ?_
    rfl

/-- Shared evaluation: the settlement formula on the debit-failure fixture. -/
theorem eval_actual_debitFails : actualQuotaOf envDebitFails task50 trS80 = 80 := by
  norm_num [actualQuotaOf, settleCalc, resolveModelName, goTruncInt, envDebitFails,
    envOnes, task50, trS80]

/-- C10 witness: `C10_quota_rewritten_on_failed_debit` on the reserved-50 /
80-token scenario with a failing debit. -/
theorem C10_quota_rewritten_on_failed_debit_witness :
    ∃ t1, updateVideoSingleTask envDebitFails task50 trS80 =
        Except.ok (t1, [Event.decreaseUserQuota task50.UserId
          (actualQuotaOf envDebitFails task50 trS80 - task50.Quota) false]) ∧
      t1.Quota = actualQuotaOf envDebitFails task50 trS80 ∧
      ∃ t2, updateVideoSingleTask envDebitFails t1 trS80 = Except.ok (t2, []) ∧
        t2.Quota = t1.Quota :=
  C10_quota_rewritten_on_failed_debit envDebitFails task50 trS80 rfl (by decide) rfl
    (lt_of_lt_of_eq (by decide) eval_actual_debitFails.symm)

end Video
